import Mathlib

/-!
Verification of the workload orchestration and lifecycle engine of the
GKE load generator (src/loadgen.py), as a shallow embedding in Lean 4.

Conventions of the embedding:
* Python dicts keyed by strings become insertion-ordered association lists
  (`List (String × _)`); dict assignment replaces the value in place when
  the key is present and appends otherwise, exactly as a Python dict does.
* The filesystem visible to the Storage workload is the set of existing
  scratch-file paths, modelled as `FS := List String` with membership;
  `open(f, "wb")` makes `f` exist, `os.remove f` makes it not exist,
  `os.path.exists f` is membership.
* Threads are modelled by their handles (`Nat`); spawning appends handles
  to `self.threads`, joining is recorded but does not change the list.
* Calls that the lifecycle claims talk about (constructing a generator,
  calling `stop_all` / `cleanup_all`, logging the empty-set warning,
  incrementing a Prometheus counter) are recorded as explicit events in
  the order the code performs them.

The file lists all definitions first and all theorems after them.
-/

namespace Loadgen

/-! ## Definitions: intensity profile -/

/-- One row of `WorkloadGenerator.intensity_levels` (loadgen.py lines
41-46): `{"cpu_percent": _, "memory_mb": _, "duration": _}`. -/
structure IntensityProfile where
  cpu_percent : Nat
  memory_mb : Nat
  duration : Nat
deriving DecidableEq, Repr

/-- Association-list lookup, the embedding of Python `dict[key]` /
`dict.get(key)` for string-keyed dicts built by listed insertions. -/
def lookupA {α : Type} : List (String × α) → String → Option α
  | [], _ => none
  | (k, v) :: rest, key => if key = k then some v else lookupA rest key

/-- The static intensity table of `WorkloadGenerator.__init__`
(loadgen.py lines 41-46). -/
def intensity_levels : List (String × IntensityProfile) :=
  [("low",    ⟨20, 100, 30⟩),
   ("medium", ⟨50, 250, 60⟩),
   ("high",   ⟨80, 500, 120⟩),
   ("custom", ⟨70, 300, 90⟩)]

/-- The row stored under "medium", `self.intensity_levels["medium"]`. -/
def mediumProfile : IntensityProfile := ⟨50, 250, 60⟩

/-- Embedding of line 48,
`self.config = self.intensity_levels.get(intensity, self.intensity_levels["medium"])`:
the table row for the label, falling back to the medium row for an unknown
label. -/
def lookupConfig (intensity : String) : IntensityProfile :=
  match lookupA intensity_levels intensity with
  | some p => p
  | none => mediumProfile

/-- The recognized intensity labels, the key set of `intensity_levels`. -/
def intensityLabels : List String := intensity_levels.map Prod.fst

/-! ## Definitions: generator state -/

/-- The mutable state of one `WorkloadGenerator` (any variant): `name` and
`intensity` from `__init__` (lines 34-38), the `running` flag, the
`threads` list (thread handles), plus the variant-owned artifact lists
`memory_chunks` (MemoryWorkload, line 112; chunk sizes in bytes) and
`temp_files` (StorageWorkload, line 212). Variants that do not own a list
simply keep it empty. -/
structure GenState where
  name : String
  intensity : String
  running : Bool
  threads : List Nat
  memory_chunks : List Nat
  temp_files : List String
deriving DecidableEq, Repr

/-- Embedding of `WorkloadGenerator.__init__(name, intensity)` (lines
34-48): `running = False`, empty thread list, empty artifact lists. -/
def mkGenState (name intensity : String) : GenState :=
  { name := name, intensity := intensity, running := false,
    threads := [], memory_chunks := [], temp_files := [] }

/-- The filesystem as seen by the Storage workload: the set of existing
scratch-file paths. -/
abbrev FS := List String

/-- Existence check, `os.path.exists f`. -/
def fsExists (fs : FS) (f : String) : Bool := fs.contains f

/-- Removal, `os.remove f`: afterwards the path `f` no longer exists. -/
def fsRemove (fs : FS) (f : String) : FS := fs.filter (fun x => x != f)

/-- Creation, `open(f, "wb")` followed by a write: the path `f` exists
afterwards (truncating an existing file keeps it existing). -/
def fsCreate (fs : FS) (f : String) : FS := if fs.contains f then fs else f :: fs

/-- Embedding of `WorkloadGenerator.start` (lines 50-53): sets
`self.running = True`. Thread spawning is added by the override of each
variant. -/
def baseStart (g : GenState) : GenState := { g with running := true }

/-- Fresh thread handles appended by a start override that spawns `n`
threads: handles unused by the current list. -/
def freshHandles (g : GenState) (n : Nat) : List Nat :=
  (List.range n).map (fun i => g.threads.length + i)

/-- Embedding of `CPUWorkload.start` (lines 73-80): base start, then spawn
one stress thread per CPU (`psutil.cpu_count()`, the parameter
`cpuCount`), appending each handle to `self.threads`. -/
def cpuStartS (cpuCount : Nat) (g : GenState) : GenState :=
  { baseStart g with threads := g.threads ++ freshHandles g cpuCount }

/-- Embedding of `MemoryWorkload.start` (lines 114-119): base start plus
one spawned thread appended to `self.threads`. -/
def memoryStartS (g : GenState) : GenState :=
  { baseStart g with threads := g.threads ++ freshHandles g 1 }

/-- Embedding of `NetworkWorkload.start` (lines 169-176): base start plus
three spawned threads appended to `self.threads`. -/
def networkStartS (g : GenState) : GenState :=
  { baseStart g with threads := g.threads ++ freshHandles g 3 }

/-- Embedding of `StorageWorkload.start` (lines 214-219): base start plus
one spawned thread appended to `self.threads`. -/
def storageStartS (g : GenState) : GenState :=
  { baseStart g with threads := g.threads ++ freshHandles g 1 }

/-- Embedding of `WorkloadGenerator.stop` (lines 55-61): sets
`self.running = False`, then joins each thread in `self.threads` (bounded
5-second timeout per thread) without removing it from the list. The
second component records the handles whose join was attempted. -/
def stopS (g : GenState) : GenState × List Nat :=
  ({ g with running := false }, g.threads)

/-- Embedding of `WorkloadGenerator.cleanup` (lines 63-65): `pass`. -/
def baseCleanup (g : GenState) : GenState := g

/-- Embedding of `MemoryWorkload.cleanup` (lines 152-155):
`self.memory_chunks.clear()` then the base cleanup. -/
def memoryCleanup (g : GenState) : GenState :=
  baseCleanup { g with memory_chunks := [] }

/-- Embedding of `StorageWorkload.cleanup` (lines 259-268): for each
recorded path, if it exists remove it from the filesystem; then
`self.temp_files.clear()` and the base cleanup. -/
def storageCleanup (g : GenState) (fs : FS) : GenState × FS :=
  (baseCleanup { g with temp_files := [] },
   g.temp_files.foldl (fun a f => if fsExists a f then fsRemove a f else a) fs)

/-! ## Definitions: loop iterations that accumulate artifacts -/

/-- One iteration of `MemoryWorkload._memory_stress` (lines 121-150): a
new chunk of `config["memory_mb"] * 1024 * 1024` bytes is allocated and
appended to `self.memory_chunks` (never freed until cleanup). -/
def memoryIter (g : GenState) : GenState :=
  { g with memory_chunks :=
      g.memory_chunks ++ [(lookupConfig g.intensity).memory_mb * 1024 * 1024] }

/-- Runs `n` completed iterations of the memory stress loop. -/
def runMemory : Nat → GenState → GenState
  | 0, g => g
  | n + 1, g => runMemory n (memoryIter g)

/-- The scratch path written by one storage iteration
(line 228: `f"/tmp/loadgen_storage_\x7bint(time.time())\x7d.dat"`). -/
def storage_filename (t : Nat) : String :=
  "/tmp/loadgen_storage_" ++ toString t ++ ".dat"

/-- One iteration of `StorageWorkload._storage_stress` (lines 221-257) at
timestamp `t`: write the scratch file (it now exists), append its path to
`self.temp_files`; re-reading the last five files changes no state. -/
def storageIter (t : Nat) : GenState × FS → GenState × FS
  | (g, fs) =>
    ({ g with temp_files := g.temp_files ++ [storage_filename t] },
     fsCreate fs (storage_filename t))

/-- Completed iterations of the storage stress loop at the given
timestamps. -/
def runStorage (ts : List Nat) (p : GenState × FS) : GenState × FS :=
  ts.foldl (fun acc t => storageIter t acc) p

/-! ## Definitions: the closed set of generator variants -/

/-- A generator instance of one of the five variants. The mixed variant
(`MixedWorkload.__init__`, lines 273-280) owns its own base state plus one
fixed child of each of the four concrete variants. -/
inductive Gen where
  | cpu (s : GenState)
  | memory (s : GenState)
  | network (s : GenState)
  | storage (s : GenState)
  | mixed (base c m n st : GenState)
deriving DecidableEq, Repr

/-- Cleanup dispatched over the variants, threading the filesystem.
CPU and Network inherit the base `pass`; Memory clears its chunks; Storage
removes its files; Mixed (lines 292-295) cleans each child in order and
then runs the base cleanup on its own state. -/
def cleanupG : Gen → FS → Gen × FS
  | .cpu s, fs => (.cpu (baseCleanup s), fs)
  | .memory s, fs => (.memory (memoryCleanup s), fs)
  | .network s, fs => (.network (baseCleanup s), fs)
  | .storage s, fs => (.storage (storageCleanup s fs).1, (storageCleanup s fs).2)
  | .mixed b c m n st, fs =>
    (.mixed (baseCleanup b) (baseCleanup c) (memoryCleanup m) (baseCleanup n)
       (storageCleanup st fs).1,
     (storageCleanup st fs).2)

/-- Stop dispatched over the variants, recording the joined handles.
Mixed (lines 287-290) stops its own state first, then each child. -/
def stopG : Gen → Gen × List Nat
  | .cpu s => (.cpu (stopS s).1, (stopS s).2)
  | .memory s => (.memory (stopS s).1, (stopS s).2)
  | .network s => (.network (stopS s).1, (stopS s).2)
  | .storage s => (.storage (stopS s).1, (stopS s).2)
  | .mixed b c m n st =>
    (.mixed (stopS b).1 (stopS c).1 (stopS m).1 (stopS n).1 (stopS st).1,
     (stopS b).2 ++ (stopS c).2 ++ (stopS m).2 ++ (stopS n).2 ++ (stopS st).2)

/-- Start dispatched over the variants (`cpuCount` is
`psutil.cpu_count()`). Mixed (lines 282-285) starts its own state, then
each child. -/
def startG (cpuCount : Nat) : Gen → Gen
  | .cpu s => .cpu (cpuStartS cpuCount s)
  | .memory s => .memory (memoryStartS s)
  | .network s => .network (networkStartS s)
  | .storage s => .storage (storageStartS s)
  | .mixed b c m n st =>
    .mixed (baseStart b) (cpuStartS cpuCount c) (memoryStartS m)
      (networkStartS n) (storageStartS st)

/-! ## Definitions: the manager -/

/-- Observable manager-level events, recorded in the order the code
performs the corresponding calls. -/
inductive MEvent where
  | constructed (t : String)
  | stoppedGen (t : String)
  | cleanedGen (t : String)
  | startedGen (t : String)
  | warnNoWorkloads
deriving DecidableEq, Repr

/-- State of `LoadGeneratorManager` (lines 300-303): the string-keyed
workload dict as an insertion-ordered association list, the `running` flag
and the `signal_received` flag. -/
structure Manager where
  workloads : List (String × Gen)
  running : Bool
  signal_received : Bool
deriving DecidableEq, Repr

/-- Embedding of `LoadGeneratorManager.__init__` (lines 300-303). -/
def Manager.init : Manager :=
  { workloads := [], running := false, signal_received := false }

/-- Python dict assignment `d[k] = v`: replace the value in place when the
key is present, append otherwise. -/
def dictInsert (l : List (String × Gen)) (k : String) (v : Gen) :
    List (String × Gen) :=
  if l.any (fun p => p.1 == k) then
    l.map (fun p => if p.1 == k then (k, v) else p)
  else l ++ [(k, v)]

/-- The `workload_map` dict of `add_workload` (lines 318-324): each
recognized type string mapped to the constructor of its variant, which
builds a fresh generator exactly as the `__init__` of that variant does. -/
def workload_ctors : List (String × (String → Gen)) :=
  [("cpu", fun i => .cpu (mkGenState "CPU" i)),
   ("memory", fun i => .memory (mkGenState "Memory" i)),
   ("network", fun i => .network (mkGenState "Network" i)),
   ("storage", fun i => .storage (mkGenState "Storage" i)),
   ("mixed", fun i => .mixed (mkGenState "Mixed" i) (mkGenState "CPU" i)
      (mkGenState "Memory" i) (mkGenState "Network" i) (mkGenState "Storage" i))]

/-- The recognized workload-type keys. -/
def workload_keys : List String := workload_ctors.map Prod.fst

/-- Embedding of `LoadGeneratorManager.add_workload` (lines 316-331):
raise `ValueError` for an unrecognized type; otherwise construct the
variant and store it under the key with plain dict assignment. The only
recorded event is the construction — the code never stops or cleans a
superseded instance. -/
def add_workload (m : Manager) (t i : String) :
    Except String (Manager × List MEvent) :=
  match lookupA workload_ctors t with
  | none => .error ("Unknown workload type: " ++ t)
  | some ctor =>
    .ok ({ m with workloads := dictInsert m.workloads t (ctor i) },
         [MEvent.constructed t])

/-- The manager reached by a successful `add_workload`, unchanged on
error. -/
def addOk (m : Manager) (t i : String) : Manager :=
  match add_workload m t i with
  | .ok (m2, _) => m2
  | .error _ => m

/-- The events emitted by `add_workload` (none on the error path). -/
def addEvents (m : Manager) (t i : String) : List MEvent :=
  match add_workload m t i with
  | .ok (_, es) => es
  | .error _ => []

/-- Embedding of `LoadGeneratorManager.start_all` (lines 333-342): with an
empty dict, log a warning and return before `self.running = True`;
otherwise set `running`, start every stored generator and record the
starts. -/
def start_all (m : Manager) (cpuCount : Nat) : Manager × List MEvent :=
  if m.workloads.isEmpty then (m, [MEvent.warnNoWorkloads])
  else
    ({ m with
        running := true,
        workloads := m.workloads.map (fun p => (p.1, startG cpuCount p.2)) },
     m.workloads.map (fun p => MEvent.startedGen p.1))

/-- Embedding of `LoadGeneratorManager.stop_all` (lines 344-349): clear
`running`, stop every stored generator, recording each stop. -/
def stop_all (m : Manager) : Manager × List MEvent :=
  ({ m with
      running := false,
      workloads := m.workloads.map (fun p => (p.1, (stopG p.2).1)) },
   m.workloads.map (fun p => MEvent.stoppedGen p.1))

/-- Embedding of `LoadGeneratorManager.cleanup_all` (lines 351-355): clean
every stored generator in order, threading the filesystem, recording each
cleanup. -/
def cleanup_all (m : Manager) (fs : FS) : Manager × FS × List MEvent :=
  let r := m.workloads.foldl
    (fun (acc : List (String × Gen) × FS) p =>
      (acc.1 ++ [(p.1, (cleanupG p.2 acc.2).1)], (cleanupG p.2 acc.2).2))
    ([], fs)
  ({ m with workloads := r.1 }, r.2,
   m.workloads.map (fun p => MEvent.cleanedGen p.1))

/-! ## Definitions: the network stress loop -/

/-- The fixed endpoint list of `NetworkWorkload.__init__` (lines
162-167). -/
def endpoints : List String :=
  ["https://httpbin.org/get",
   "https://httpbin.org/post",
   "https://httpbin.org/status/200",
   "https://httpbin.org/delay/1"]

/-- Metric events emitted by one pass of `_network_stress`. -/
inductive NEvent where
  | requestInc
  | durationObserve
  | gaugeSet (resource : String)
deriving DecidableEq, Repr

/-- One full pass of the request loop in `NetworkWorkload._network_stress`
(lines 180-201), given the status codes of the responses actually received
(a prefix of one response per endpoint, since the loop re-checks
`self.running` before each request): for each response the request counter
is incremented precisely when `response.status_code == 200` (line 190);
afterwards the duration histogram is observed and the two byte-count
gauges are set. -/
def networkPassEvents (statuses : List Nat) : List NEvent :=
  (statuses.flatMap fun st => if st == 200 then [NEvent.requestInc] else []) ++
  [NEvent.durationObserve, NEvent.gaugeSet "network_bytes_sent",
   NEvent.gaugeSet "network_bytes_recv"]

/-- Modelled from the spec: the notion of a success status in the sentence
"count only responses with a success status", read as the HTTP success
class 2xx. Used only to compare that sentence with the check the code
performs. -/
def isSuccessStatus (st : Nat) : Bool := 200 ≤ st && st < 300

/-! ## Definitions: the run loop -/

/-- The exit paths of the polling loop in `main` (lines 376-401): the
duration elapses, a termination signal arrives while the loop is sleeping,
or the loop body raises an uncaught error. -/
inductive ExitPath where
  | natural
  | signalled
  | uncaughtError
deriving DecidableEq, Repr

/-- Teardown-relevant calls made by `main` and by the signal handler. -/
inductive RunEvent where
  | stopAllCall
  | cleanupAllCall
deriving DecidableEq, Repr

/-- Calls of `LoadGeneratorManager._signal_handler` (lines 309-314): logs,
sets `signal_received`, calls `stop_all()`, then `sys.exit(0)` raises
`SystemExit` in the interrupted main thread. -/
def signalHandlerCalls : List RunEvent := [RunEvent.stopAllCall]

/-- The `finally` block of `main` (lines 397-400): `stop_all()` then
`cleanup_all()`. -/
def finallyCalls : List RunEvent :=
  [RunEvent.stopAllCall, RunEvent.cleanupAllCall]

/-- The teardown calls performed by `main` (lines 376-401) on each exit
path of the polling loop, in order. Natural completion falls through to
the `finally` block; an uncaught `Exception` from the loop body is caught
by `except Exception` and also reaches only the `finally` block; a signal
runs the handler inside the `try` (stop_all, then `SystemExit`), and
`SystemExit` — not being an `Exception` — escapes both `except` clauses,
so the `finally` block runs as well. -/
def mainTeardownTrace : ExitPath → List RunEvent
  | .natural => finallyCalls
  | .uncaughtError => finallyCalls
  | .signalled => signalHandlerCalls ++ finallyCalls

/-! ## Helper theorems -/

theorem lookupA_eq_none {α : Type} (l : List (String × α)) (key : String)
    (h : key ∉ l.map Prod.fst) : lookupA l key = none := by
  induction l with
  | nil => rfl
  | cons p rest ih =>
    simp only [List.map_cons, List.mem_cons, not_or] at h
    simp only [lookupA, if_neg h.1]
    exact ih h.2

theorem lookupA_isSome {α : Type} (l : List (String × α)) (key : String)
    (h : key ∈ l.map Prod.fst) : ∃ v, lookupA l key = some v := by
  induction l with
  | nil => simp at h
  | cons p rest ih =>
    by_cases hk : key = p.1
    · exact ⟨p.2, by simp [lookupA, hk]⟩
    · simp only [List.map_cons, List.mem_cons, hk, false_or] at h
      obtain ⟨v, hv⟩ := ih h
      exact ⟨v, by simpa [lookupA, hk] using hv⟩

theorem mem_fsRemove {fs : FS} {x f : String} :
    x ∈ fsRemove fs f ↔ x ∈ fs ∧ x ≠ f := by
  simp [fsRemove, List.mem_filter, bne_iff_ne]

theorem not_mem_cleanupStep {a : FS} {x f : String} (h : x ∉ a) :
    x ∉ (if fsExists a f then fsRemove a f else a) := by
  split
  · exact fun hx => h (mem_fsRemove.mp hx).1
  · exact h

theorem not_mem_cleanupFold {x : String} :
    ∀ (temps : List String) (a : FS), x ∉ a →
      x ∉ temps.foldl (fun a f => if fsExists a f then fsRemove a f else a) a := by
  intro temps
  induction temps with
  | nil => intro a h; exact h
  | cons f rest ih =>
    intro a h
    exact ih _ (not_mem_cleanupStep h)

theorem mem_removed_of_mem_temps {x : String} :
    ∀ (temps : List String) (a : FS), x ∈ temps →
      x ∉ temps.foldl (fun a f => if fsExists a f then fsRemove a f else a) a := by
  intro temps
  induction temps with
  | nil => intro a h; simp at h
  | cons f rest ih =>
    intro a hx
    rcases List.mem_cons.mp hx with h | h
    · subst h
      apply not_mem_cleanupFold rest
      by_cases hex : fsExists a x
      · simp only [List.foldl_cons, if_pos hex]
        exact fun hc => (mem_fsRemove.mp hc).2 rfl
      · simp only [List.foldl_cons, if_neg hex]
        intro hc
        exact hex (List.elem_eq_true_of_mem hc)
    · exact ih _ h

/-! ## Claim theorems -/

/-- C5 -- For every intensity label, the intensity-profile lookup is a
pure function with no error path: each recognized label (low, medium,
high, custom) resolves to its own table row, and any unrecognized label
resolves to a profile exactly equal to the medium row. -/
theorem C5_intensity_lookup :
    lookupConfig "low" = ⟨20, 100, 30⟩ ∧
    lookupConfig "medium" = mediumProfile ∧
    lookupConfig "high" = ⟨80, 500, 120⟩ ∧
    lookupConfig "custom" = ⟨70, 300, 90⟩ ∧
    ∀ s : String, s ∉ intensityLabels → lookupConfig s = mediumProfile := by
  refine ⟨rfl, rfl, rfl, rfl, fun s hs => ?_⟩
  unfold lookupConfig
  rw [lookupA_eq_none intensity_levels s hs]

/-- Witness for C5 at the concrete unrecognized label "turbo". -/
theorem C5_intensity_lookup_witness : lookupConfig "turbo" = mediumProfile :=
  C5_intensity_lookup.2.2.2.2 "turbo" (by decide)

/-- C6 -- For every Generator variant and every Generator state (reachable
or not) and filesystem, calling cleanup() twice in succession yields the
same final state and filesystem as calling it once: cleanup is idempotent,
clearing an already-empty artifact collection is a no-op. -/
theorem C6_cleanup_idempotent (g : Gen) (fs : FS) :
    cleanupG (cleanupG g fs).1 (cleanupG g fs).2 = cleanupG g fs := by
  cases g <;> rfl

/-- C3 -- For the artifact-owning variants and any number of completed
loop iterations, stop() followed by cleanup() leaves zero owned artifacts:
the retained buffer list of the Memory generator is empty, and the
recorded-file list of the Storage generator is empty with none of the
files it recorded still existing on disk. -/
theorem C3_stop_cleanup_no_artifacts (gm gs : GenState) (n : Nat)
    (ts : List Nat) (fs : FS) :
    (memoryCleanup (stopS (runMemory n gm)).1).memory_chunks = [] ∧
    (storageCleanup (stopS (runStorage ts (gs, fs)).1).1
       (runStorage ts (gs, fs)).2).1.temp_files = [] ∧
    ∀ f, f ∈ (stopS (runStorage ts (gs, fs)).1).1.temp_files →
      f ∉ (storageCleanup (stopS (runStorage ts (gs, fs)).1).1
             (runStorage ts (gs, fs)).2).2 := by
  refine ⟨rfl, rfl, fun f hf => ?_⟩
  exact mem_removed_of_mem_temps _ _ hf

/-- Witness for C3: two memory iterations and two storage iterations at
timestamps 100 and 101, starting from fresh generators and an empty disk;
the first recorded scratch file no longer exists after cleanup. -/
theorem C3_stop_cleanup_no_artifacts_witness :
    storage_filename 100 ∉
      (storageCleanup
         (stopS (runStorage [100, 101] (mkGenState "Storage" "low", [])).1).1
         (runStorage [100, 101] (mkGenState "Storage" "low", [])).2).2 :=
  (C3_stop_cleanup_no_artifacts (mkGenState "Memory" "medium")
      (mkGenState "Storage" "low") 2 [100, 101] []).2.2
    (storage_filename 100) (by decide)

/-- C9 -- Calling stop() on a Generator that was never started (empty
thread list) does not raise and terminates immediately: it sets the
running flag to False, joins nothing, and leaves everything else
unchanged. -/
theorem C9_stop_unstarted (g : GenState) (h : g.threads = []) :
    stopS g = ({ g with running := false }, []) := by
  simp [stopS, h]

/-- Witness for C9 at a freshly constructed generator. -/
theorem C9_stop_unstarted_witness :
    stopS (mkGenState "CPU" "low") =
      ({ mkGenState "CPU" "low" with running := false }, []) :=
  C9_stop_unstarted (mkGenState "CPU" "low") rfl

/-- C10 -- Neither stop() nor cleanup() removes entries from the owned
thread list: stop joins the threads but retains their handles, both
cleanups leave the list untouched, and a subsequent CPU start() appends
`cpuCount` new handles to the same retained list (the old list stays at
the front of the new one) rather than replacing it. -/
theorem C10_threads_retained (g : GenState) (fs : FS) (cpuCount : Nat) :
    (stopS g).1.threads = g.threads ∧
    (memoryCleanup g).threads = g.threads ∧
    (storageCleanup g fs).1.threads = g.threads ∧
    (cpuStartS cpuCount g).threads.take g.threads.length = g.threads ∧
    (cpuStartS cpuCount g).threads.length = g.threads.length + cpuCount := by
  refine ⟨rfl, rfl, rfl, ?_, ?_⟩
  · exact List.take_left _ _
  · simp [cpuStartS, freshHandles, baseStart]

/-- C4 -- For every workload-type string not among the recognized keys,
`add_workload` raises the unknown-workload-type error to the caller before
any generator is constructed or started: the call produces the error, the
workload mapping is unchanged, and no event (in particular no
construction) is emitted. -/
theorem C4_unknown_workload_type (m : Manager) (t i : String)
    (h : t ∉ workload_keys) :
    add_workload m t i = .error ("Unknown workload type: " ++ t) ∧
    addOk m t i = m ∧
    addEvents m t i = [] := by
  have hl : lookupA workload_ctors t = none := lookupA_eq_none _ _ h
  refine ⟨?_, ?_, ?_⟩ <;> simp [add_workload, addOk, addEvents, hl]

/-- Witness for C4 at the unrecognized type "gpu" against the fresh
manager. -/
theorem C4_unknown_workload_type_witness :
    add_workload Manager.init "gpu" "low" =
      .error ("Unknown workload type: " ++ "gpu") :=
  (C4_unknown_workload_type Manager.init "gpu" "low" (by decide)).1

/-- C2 counterexample -- re-adding the key "cpu" (added with intensity
"high", then again with "low") replaces the stored generator with the new
one, yet the only event `add_workload` emits is the construction of the
new generator: the prior instance is never stopped nor cleaned,
contradicting the claim that replacement happens only after the prior
instance is stopped and cleaned up. -/
theorem C2_counterexample :
    lookupA (addOk Manager.init "cpu" "high").workloads "cpu" =
      some (Gen.cpu (mkGenState "CPU" "high")) ∧
    lookupA (addOk (addOk Manager.init "cpu" "high") "cpu" "low").workloads
        "cpu" =
      some (Gen.cpu (mkGenState "CPU" "low")) ∧
    addEvents (addOk Manager.init "cpu" "high") "cpu" "low" =
      [MEvent.constructed "cpu"] ∧
    MEvent.stoppedGen "cpu" ∉
      addEvents (addOk Manager.init "cpu" "high") "cpu" "low" ∧
    MEvent.cleanedGen "cpu" ∉
      addEvents (addOk Manager.init "cpu" "high") "cpu" "low" := by
  decide

/-- C2 (amended) -- re-adding a key already present in the workload
mapping replaces the prior Generator instance WITHOUT stopping or cleaning
it (the sole emitted event is the construction of the replacement), and
afterwards exactly one Generator is stored under that key, with the size
of the mapping unchanged. -/
theorem C2_add_replaces_without_teardown (m : Manager) (k i : String)
    (hk : k ∈ workload_keys)
    (hmem : k ∈ m.workloads.map Prod.fst)
    (hnd : (m.workloads.map Prod.fst).Nodup) :
    ∃ m2, add_workload m k i = .ok (m2, [MEvent.constructed k]) ∧
      m2.workloads.length = m.workloads.length ∧
      (m2.workloads.map Prod.fst).count k = 1 ∧
      MEvent.stoppedGen k ∉ addEvents m k i ∧
      MEvent.cleanedGen k ∉ addEvents m k i := by
  obtain ⟨c, hc⟩ := lookupA_isSome workload_ctors k hk
  obtain ⟨p, hp, hpk⟩ := List.mem_map.mp hmem
  have hany : m.workloads.any (fun p => p.1 == k) = true :=
    List.any_eq_true.mpr ⟨p, hp, beq_iff_eq.mpr hpk⟩
  have hfst : (dictInsert m.workloads k (c i)).map Prod.fst =
      m.workloads.map Prod.fst := by
    simp only [dictInsert, if_pos hany, List.map_map]
    refine List.map_congr_left fun q _ => ?_
    by_cases hq : q.1 == k
    · simp [Function.comp, hq, beq_iff_eq.mp hq]
    · simp [Function.comp, hq]
  refine ⟨{ m with workloads := dictInsert m.workloads k (c i) },
    ?_, ?_, ?_, ?_, ?_⟩
  · simp [add_workload, hc]
  · simp [dictInsert, hany]
  · rw [show ({ m with workloads := dictInsert m.workloads k (c i) } :
        Manager).workloads = dictInsert m.workloads k (c i) from rfl, hfst]
    exact List.count_eq_one_of_mem hnd hmem
  · simp [addEvents, add_workload, hc]
  · simp [addEvents, add_workload, hc]

/-- Witness for C2 (amended): "cpu" re-added with intensity "low" over a
manager already holding a "cpu" generator. -/
theorem C2_add_replaces_without_teardown_witness :
    ∃ m2, add_workload (addOk Manager.init "cpu" "high") "cpu" "low" =
        .ok (m2, [MEvent.constructed "cpu"]) ∧
      m2.workloads.length =
        (addOk Manager.init "cpu" "high").workloads.length ∧
      (m2.workloads.map Prod.fst).count "cpu" = 1 ∧
      MEvent.stoppedGen "cpu" ∉
        addEvents (addOk Manager.init "cpu" "high") "cpu" "low" ∧
      MEvent.cleanedGen "cpu" ∉
        addEvents (addOk Manager.init "cpu" "high") "cpu" "low" :=
  C2_add_replaces_without_teardown (addOk Manager.init "cpu" "high")
    "cpu" "low" (by decide) (by decide) (by decide)

/-- C8 -- If the workload mapping is empty, `start_all` returns without
raising, spawns nothing and changes nothing (the manager is returned
intact), logs the no-workloads warning, and in particular leaves the
running flag exactly as it was: False stays False because the early return
skips `self.running = True`. -/
theorem C8_start_all_empty (m : Manager) (cpuCount : Nat)
    (h : m.workloads = []) :
    start_all m cpuCount = (m, [MEvent.warnNoWorkloads]) ∧
    (m.running = false → (start_all m cpuCount).1.running = false) := by
  constructor
  · simp [start_all, h]
  · intro hr
    simp [start_all, h, hr]

/-- Witness for C8 at the freshly initialized manager with 4 CPUs. -/
theorem C8_start_all_empty_witness :
    start_all Manager.init 4 = (Manager.init, [MEvent.warnNoWorkloads]) ∧
    (start_all Manager.init 4).1.running = false :=
  ⟨(C8_start_all_empty Manager.init 4 rfl).1,
   (C8_start_all_empty Manager.init 4 rfl).2 rfl⟩

/-- C7 counterexample -- a pass whose single response has status 204 (a
success status) increments the request counter zero times, not once:
the code counts only status 200, not every success status. -/
theorem C7_counterexample :
    isSuccessStatus 204 = true ∧
    (networkPassEvents [204]).count NEvent.requestInc = 0 := by
  decide

/-- C7 (amended) -- in every pass of the network stress loop, the request
counter is incremented exactly once per response whose status code is
exactly 200, and never for a response with any other status code
(other success statuses included). -/
theorem C7_network_counter (statuses : List Nat) :
    (networkPassEvents statuses).count NEvent.requestInc =
      statuses.countP (fun st => st == 200) := by
  unfold networkPassEvents
  rw [List.count_append]
  have htail : List.count NEvent.requestInc
      [NEvent.durationObserve, NEvent.gaugeSet "network_bytes_sent",
       NEvent.gaugeSet "network_bytes_recv"] = 0 := by decide
  rw [htail, Nat.add_zero]
  induction statuses with
  | nil => rfl
  | cons st rest ih =>
    rw [List.flatMap_cons, List.count_append, List.countP_cons, ih]
    by_cases h : st == 200
    · simp [h, List.count_cons, Nat.add_comm]
    · simp [h]

/-- C1 counterexample -- on the signal exit path `stop_all` is called
twice (once by the signal handler, once again by the `finally` block), so
the claim that stopAll runs exactly once on every exit path fails on that
path. -/
theorem C1_counterexample :
    (mainTeardownTrace ExitPath.signalled).count RunEvent.stopAllCall = 2 := by
  decide

/-- C1 (amended) -- on every exit path of the run loop, `cleanup_all` is
called exactly once, as the final teardown call, and every `stop_all` call
precedes it; `stop_all` is called exactly once on the natural-completion
and uncaught-error paths, and exactly twice on the signal path (once by
the handler, once by the `finally` block). -/
theorem C1_teardown_on_every_exit (p : ExitPath) :
    (mainTeardownTrace p).count RunEvent.cleanupAllCall = 1 ∧
    (mainTeardownTrace p).count RunEvent.stopAllCall =
      (if p = ExitPath.signalled then 2 else 1) ∧
    (mainTeardownTrace p).getLast? = some RunEvent.cleanupAllCall ∧
    RunEvent.cleanupAllCall ∉ (mainTeardownTrace p).dropLast := by
  cases p <;> exact ⟨by decide, by decide, by decide, by decide⟩

end Loadgen
